import Mathlib

/-!
Shallow embedding of `src/ripe_atlas_puller.py` (class `RipeAtlasPipeline`).

Modelling conventions:
* Calendar dates (`datetime` objects parsed by `strptime("%Y-%m-%d")`) are
  represented by their day number since 1970-01-01 (an `Int`).
  `timedelta(days=i)` addition becomes integer addition and
  `(end - start).days` becomes integer subtraction, which is exact because
  both datetimes sit at midnight.  `strftime` is modelled by a real
  Gregorian-calendar formatter (`civil_from_days`, Hinnant's algorithm).
* The local filesystem is a partial map from path strings to file data.
  A raw `.bz2` archive is modelled by its byte size together with what
  decompressing it yields: either a list of lines (each line either a parsed
  JSON record or a line on which `json.loads` raises `JSONDecodeError`,
  modelled by `Option Record`), or `corrupt` when `bz2` reading raises.
* One `requests.get` call is modelled by a `NetResult` oracle indexed by URL:
  `httpError` (an unsuccessful HTTP status, so `raise_for_status` raises
  `requests.exceptions.HTTPError`), `connFailure` (a timeout or connection
  reset before the body is streamed — a requests exception that is *not*
  `HTTPError`), `streamFailure w` (the connection drops while iterating
  chunks, after `w` bytes were already written to the open file), or
  `ok size content` (success; the body of `size` bytes is streamed to disk).
* Python exceptions that escape a function are modelled by `Except.error`;
  a normal return value by `Except.ok`.
* The `ProcessPoolExecutor` loops of `execute` are modelled sequentially:
  every task touches only the paths derived from its own day, so the final
  filesystem does not depend on completion order, and `future.result()`
  re-raising the exception of any failed task is modelled by the fold
  aborting with `Except.error`.
* Observability of I/O: `download_dump` additionally returns a `Bool` that is
  true iff the call performed network access (entered the `requests.get`
  block), and `process_dump` returns a `Bool` that is true iff the call
  opened (or tried to open) the raw input file.  These flags are the
  instrumentation needed to state the idempotency claims.
-/

/-- The fields of one parsed JSON line that the pipeline reads
(`record.get("prb_id")`, `record.get("dst_addr")`, `record.get("avg")`,
`record.get("timestamp")`); a `dict` with optional keys. The metric is kept
as an integer; only its order relative to the threshold 50 matters. -/
structure Record where
  avg : Option Int
  prb_id : Option Int
  dst_addr : Option String
  timestamp : Option Int
deriving DecidableEq

/-- Python `record.get("avg", 0)`: the metric field with default 0. -/
def Record.avgD (record : Record) : Int := record.avg.getD 0

/-- The projection appended to `filtered_results` for a record passing the
filter (the dict literal at lines 87-92 of the source). -/
structure FilteredRecord where
  prb_id : Option Int
  dst_addr : Option String
  avg_rtt : Option Int
  timestamp : Option Int
deriving DecidableEq

/-- What decompressing a raw archive yields: a list of text lines, each
either a parsed record or a line on which `json.loads` raises
(`none`), or `corrupt` when the `bz2` stream itself is invalid/truncated
and reading raises an `OSError`/`EOFError`. -/
inductive RawContent where
  | good (lines : List (Option Record))
  | corrupt
deriving DecidableEq

/-- Abstract serialized size of the output document written by `json.dump`
(`"[]"` plus the entries); its exact value is never relied upon. -/
def docSize (recs : List FilteredRecord) : Nat := 2 + recs.length

/-- A file on the local filesystem: a raw compressed archive (size in bytes,
plus decompressed content), a complete parsed output document, or a
truncated output file left behind by a write that failed partway. -/
inductive FileData where
  | raw (size : Nat) (content : RawContent)
  | doc (recs : List FilteredRecord)
  | truncated (size : Nat)
deriving DecidableEq

/-- `os.path.getsize` on the modelled file. -/
def FileData.size : FileData → Nat
  | FileData.raw sz _ => sz
  | FileData.doc recs => docSize recs
  | FileData.truncated sz => sz

/-- The local filesystem: a partial map from paths to files. -/
def FS : Type := String → Option FileData

/-- Writing (creating or overwriting) one file. -/
def FS.set (fs : FS) (p : String) (d : FileData) : FS :=
  fun q => if q = p then some d else fs q

/-- `os.path.exists(p) and os.path.getsize(p) > 0` (line 48 of the source). -/
def present (fs : FS) (p : String) : Bool :=
  match fs p with
  | some fd => decide (0 < fd.size)
  | none => false

/-- Outcome of one `requests.get(url, stream=True, timeout=30)` call together
with the streaming of its body. -/
inductive NetResult where
  | httpError
  | connFailure
  | streamFailure (written : Nat)
  | ok (size : Nat) (content : RawContent)

/-- `self.raw_dir = "data/raw_dumps"`. -/
def raw_dir : String := "data/raw_dumps"

/-- `self.parsed_dir = "data/parsed_dumps"`. -/
def parsed_dir : String := "data/parsed_dumps"

/-- `self.base_url = "https://ftp.ripe.net/ripe/atlas/data"`. -/
def base_url : String := "https://ftp.ripe.net/ripe/atlas/data"

/-- The configuration held by a constructed `RipeAtlasPipeline` object.
`start_date`/`end_date` are the `strptime`-parsed dates as day numbers. -/
structure RipeAtlasPipeline where
  start_date : Int
  end_date : Int
  ipv : String
  subtype : String
  max_workers : Nat

/-- `RipeAtlasPipeline.__init__`: stores the parsed dates and tags and
creates the two data directories.  The source performs no validation of the
date range whatsoever (no comparison of `start_date` with `end_date`), so —
given well-formed date strings, whose `strptime` parse is modelled as the
day number — construction always succeeds.  The `Except` codomain records
that no exception escapes. -/
def RipeAtlasPipeline.init (start_date end_date : Int) (ipv subtype : String)
    (max_workers : Nat) : Except String RipeAtlasPipeline :=
  Except.ok { start_date := start_date, end_date := end_date, ipv := ipv,
              subtype := subtype, max_workers := max_workers }

/-- `_get_date_range`: `[start + timedelta(days=i) for i in range(delta.days + 1)]`
with `delta = end - start`; `range` of a non-positive bound is empty, which
`Int.toNat` reproduces. -/
def _get_date_range (p : RipeAtlasPipeline) : List Int :=
  (List.range (p.end_date - p.start_date + 1).toNat).map
    (fun i : Nat => p.start_date + (i : Int))

/-- Decimal digit character. -/
def digitChar (n : Nat) : Char := Char.ofNat (48 + n)

/-- Decimal digits of a number, most significant first (fuel-indexed). -/
def natToChars : Nat → Nat → List Char
  | 0, _ => []
  | fuel + 1, n =>
    if n < 10 then [digitChar n]
    else natToChars fuel (n / 10) ++ [digitChar (n % 10)]

/-- Zero-padded decimal rendering, as `strftime` produces for
`%Y` (width 4) and `%m`/`%d` (width 2). -/
def padZero (width n : Nat) : String :=
  let ds := natToChars (n + 1) n
  String.mk (List.replicate (width - ds.length) '0' ++ ds)

/-- Gregorian calendar date (year, month, day) of a day number since
1970-01-01; Hinnant's civil-from-days algorithm, the standard model of what
`datetime.strftime` prints for a proleptic-Gregorian date. -/
def civil_from_days (z0 : Int) : Int × Int × Int :=
  let z : Int := z0 + 719468
  let era : Int := (if 0 ≤ z then z else z - 146096) / 146097
  let doe : Int := z - era * 146097
  let yoe : Int := (doe - doe / 1460 + doe / 36524 - doe / 146096) / 365
  let y : Int := yoe + era * 400
  let doy : Int := doe - (365 * yoe + yoe / 4 - yoe / 100)
  let mp : Int := (5 * doy + 2) / 153
  let d : Int := doy - (153 * mp + 2) / 5 + 1
  let m : Int := if mp < 10 then mp + 3 else mp - 9
  (if m ≤ 2 then y + 1 else y, m, d)

/-- `target_date.strftime("%Y-%m-%d")`. -/
def fmt_date (d : Int) : String :=
  let c := civil_from_days d
  padZero 4 c.1.toNat ++ "-" ++ padZero 2 c.2.1.toNat ++ "-" ++ padZero 2 c.2.2.toNat

/-- `_build_url`: returns `(url, filename)` exactly as the source builds
them from the f-strings at lines 37-39. -/
def _build_url (self : RipeAtlasPipeline) (target_date : Int) : String × String :=
  let date_str := fmt_date target_date
  let c := civil_from_days target_date
  let year := padZero 4 c.1.toNat
  let month := padZero 2 c.2.1.toNat
  let day := padZero 2 c.2.2.toNat
  let filename := "ping-" ++ self.ipv ++ "-" ++ self.subtype ++ "-" ++ date_str ++ ".bz2"
  let url := base_url ++ "/" ++ year ++ "/" ++ month ++ "/" ++ day ++ "/" ++ filename
  (url, filename)

/-- The URL `download_dump` requests for a day. -/
def urlOf (self : RipeAtlasPipeline) (d : Int) : String := (_build_url self d).1

/-- `raw_path = os.path.join(self.raw_dir, filename)` (both components are
relative with no trailing slash, so `join` inserts a single slash). -/
def rawPathOf (self : RipeAtlasPipeline) (d : Int) : String :=
  raw_dir ++ "/" ++ (_build_url self d).2

/-- `download_dump(date_obj)` (lines 42-61).  The fast idempotency check
skips the network when a non-empty file is already on disk.  Only
`requests.exceptions.HTTPError` (from `raise_for_status`) is caught and
turned into a `None` return; any other requests exception — a connection
failure or a mid-stream failure — escapes the function (`Except.error`).
A mid-stream failure leaves the partially written bytes on disk (the file
was opened with mode `wb` directly at `raw_path`); a truncated prefix of a
bz2 stream does not decompress cleanly, hence `corrupt`.
Returns (result-or-exception, filesystem afterwards, network-was-accessed). -/
def download_dump (self : RipeAtlasPipeline) (net : String → NetResult) (fs : FS)
    (date_obj : Int) : Except Unit (Option String) × FS × Bool :=
  let raw_path := rawPathOf self date_obj
  if present fs raw_path then (Except.ok (some raw_path), fs, false)
  else
    match net (urlOf self date_obj) with
    | NetResult.httpError => (Except.ok none, fs, true)
    | NetResult.connFailure => (Except.error (), fs, true)
    | NetResult.streamFailure written =>
        (Except.error (), fs.set raw_path (FileData.raw written RawContent.corrupt), true)
    | NetResult.ok size content =>
        (Except.ok (some raw_path), fs.set raw_path (FileData.raw size content), true)

/-- `project`: the dict appended to `filtered_results` (lines 87-92). -/
def project (record : Record) : FilteredRecord :=
  { prb_id := record.prb_id, dst_addr := record.dst_addr,
    avg_rtt := record.avg, timestamp := record.timestamp }

/-- One iteration of the `for line in f` loop (lines 80-94): a line that
fails `json.loads` is skipped (`continue`); a parsed record is appended to
the accumulator exactly when `record.get("avg", 0) > 50`. -/
def filterStep (acc : List FilteredRecord) (line : Option Record) : List FilteredRecord :=
  match line with
  | none => acc
  | some record => if 50 < record.avgD then acc.concat (project record) else acc

/-- The value of the `filtered_results` accumulator after the whole
line-by-line pass. -/
def filtered_results (lines : List (Option Record)) : List FilteredRecord :=
  lines.foldl filterStep []

/-- Python `str.replace(pat, rep)` on character lists: left-to-right,
non-overlapping.  Structurally recursive on a fuel argument; each step
consumes at least one character of the scanned list, so fuel equal to the
list's length (supplied by `pyReplace`) always suffices. -/
def replaceList : Nat → List Char → List Char → List Char → List Char
  | 0, _, _, _ => []
  | fuel + 1, pat, rep, l =>
    match l with
    | [] => []
    | c :: cs =>
      if pat ≠ [] ∧ (c :: cs).take pat.length = pat then
        rep ++ replaceList fuel pat rep (cs.drop (pat.length - 1))
      else c :: replaceList fuel pat rep cs

/-- Python `str.replace`. -/
def pyReplace (s pat rep : String) : String :=
  String.mk (replaceList s.data.length pat.data rep.data s.data)

/-- `os.path.basename`: everything after the last slash. -/
def basename (s : String) : String :=
  String.mk (s.data.foldl (fun acc c => if c = '/' then [] else acc.concat c) [])

/-- `parsed_path` as derived in `process_dump` (lines 68-70):
`os.path.join(self.parsed_dir, os.path.basename(raw_path).replace('.bz2', '_parsed.json'))`. -/
def parsedPathOf (rp : String) : String :=
  parsed_dir ++ "/" ++ pyReplace (basename rp) ".bz2" "_parsed.json"

/-- `process_dump(raw_path)` (lines 63-103).  `None` input (a failed fetch)
returns `None` at once.  If anything exists at the derived output path the
function returns it without touching the raw input.  Otherwise the raw file
is streamed: a good archive yields `filtered_results lines`, which is then
serialized by `json.dump` into a file opened with mode `w`; `wrFail` is the
write oracle — `none` means the write completes, `some written` means it
fails after `written` bytes, leaving a truncated file at the output path
(the `except` clause catches the exception and returns `None`).  A corrupt
or missing raw file makes reading raise; the exception is caught, nothing
is written, and `None` is returned.
Returns (result, filesystem afterwards, raw-input-was-opened). -/
def process_dump (wrFail : String → Option Nat) (fs : FS) (raw_path : Option String) :
    Option String × FS × Bool :=
  match raw_path with
  | none => (none, fs, false)
  | some rp =>
    let parsed_path := parsedPathOf rp
    if (fs parsed_path).isSome then (some parsed_path, fs, false)
    else
      match fs rp with
      | some (FileData.raw _ (RawContent.good lines)) =>
        (match wrFail parsed_path with
         | none =>
             (some parsed_path,
              fs.set parsed_path (FileData.doc (filtered_results lines)), true)
         | some written =>
             (none, fs.set parsed_path (FileData.truncated written), true))
      | _ => (none, fs, true)

/-- Phase 1 of `execute` (lines 109-115): one `download_dump` per day; the
collected `Option` results, the filesystem, and how many calls touched the
network.  `future.result()` re-raises any exception a task raised, which
aborts the run; tasks touch pairwise distinct paths, so the sequential
order is immaterial to the final state. -/
def phase1 (self : RipeAtlasPipeline) (net : String → NetResult) :
    FS → List Int → Except Unit (List (Option String) × FS × Nat)
  | fs, [] => Except.ok ([], fs, 0)
  | fs, d :: ds =>
    match download_dump self net fs d with
    | (Except.error e, _, _) => Except.error e
    | (Except.ok r, fs', accessed) =>
      match phase1 self net fs' ds with
      | Except.error e => Except.error e
      | Except.ok (rs, fs'', n) =>
          Except.ok (r :: rs, fs'', (if accessed then 1 else 0) + n)

/-- Phase 2 of `execute` (lines 117-121): one `process_dump` per collected
raw path; `process_dump` catches every exception, so this loop never
raises.  Returns the filesystem and how many calls opened their raw input. -/
def phase2 (wrFail : String → Option Nat) : FS → List String → FS × Nat
  | fs, [] => (fs, 0)
  | fs, p :: ps =>
    match process_dump wrFail fs (some p) with
    | (_, fs', scanned) =>
      let rest := phase2 wrFail fs' ps
      (rest.1, (if scanned then 1 else 0) + rest.2)

/-- `execute` (lines 105-123): Phase 1 over the whole date range, then
(`if result: raw_files.append(result)`) Phase 2 over the successful paths.
Returns the final filesystem, the number of network accesses and the number
of processing scans, or the exception that aborted the run. -/
def execute (self : RipeAtlasPipeline) (net : String → NetResult)
    (wrFail : String → Option Nat) (fs : FS) : Except Unit (FS × Nat × Nat) :=
  match phase1 self net fs (_get_date_range self) with
  | Except.error e => Except.error e
  | Except.ok (outs, fs1, nNet) =>
    let raw_files := outs.filterMap id
    let p2 := phase2 wrFail fs1 raw_files
    Except.ok (p2.1, nNet, p2.2)

/-- A one-day configuration (2025-10-01, day 20362 since the epoch). -/
def self0 : RipeAtlasPipeline :=
  { start_date := 20362, end_date := 20362, ipv := "v4", subtype := "builtin",
    max_workers := 4 }

/-- A three-day configuration (2025-10-01 through 2025-10-03). -/
def self3 : RipeAtlasPipeline :=
  { start_date := 20362, end_date := 20364, ipv := "v4", subtype := "builtin",
    max_workers := 4 }

/-- A configuration whose start date (2025-10-21) is after its end date
(2025-10-11). -/
def self_bad : RipeAtlasPipeline :=
  { start_date := 20382, end_date := 20372, ipv := "v4", subtype := "builtin",
    max_workers := 4 }

/-- The empty filesystem. -/
def fs0 : FS := fun _ => none

/-- A network where every request hits a connection failure (timeout or
reset) before the body streams. -/
def net_conn_fail : String → NetResult := fun _ => NetResult.connFailure

/-- A network where every request gets an unsuccessful HTTP status. -/
def net_http_err : String → NetResult := fun _ => NetResult.httpError

/-- A network that successfully returns an empty (zero-byte) body. -/
def net_empty_ok : String → NetResult := fun _ => NetResult.ok 0 RawContent.corrupt

/-- A network that successfully returns a 7-byte body decompressing to no
lines. -/
def net_good : String → NetResult := fun _ => NetResult.ok 7 (RawContent.good [])

/-- A write oracle under which every output write completes. -/
def wf0 : String → Option Nat := fun _ => none

/-- A write oracle under which every output write fails immediately,
leaving a zero-byte file. -/
def wf_fail0 : String → Option Nat := fun _ => some 0

/-- A record whose metric is 75 (passes the threshold-50 filter). -/
def rec75 : Record :=
  { avg := some 75, prb_id := some 101, dst_addr := some "198.51.100.7",
    timestamp := some 1759276800 }

/-- A record whose metric is 10 (fails the threshold-50 filter). -/
def rec10 : Record :=
  { avg := some 10, prb_id := some 102, dst_addr := some "198.51.100.8",
    timestamp := some 1759276801 }

/-- The raw path of `self0`'s single day. -/
def raw_path_a : String := "data/raw_dumps/ping-v4-builtin-2025-10-01.bz2"

/-- A filesystem holding one good archive: one passing record, no malformed
lines. -/
def fs_good : FS := fs0.set raw_path_a (FileData.raw 9 (RawContent.good [some rec75]))

/-- A filesystem holding one good archive: one passing record followed by
one malformed line. -/
def fs_one_bad : FS :=
  fs0.set raw_path_a (FileData.raw 9 (RawContent.good [some rec75, none]))

/-- A filesystem holding one good archive: one passing record followed by
two malformed lines. -/
def fs_two_bad : FS :=
  fs0.set raw_path_a (FileData.raw 9 (RawContent.good [some rec75, none, none]))

/-- A filesystem holding one corrupt (undecompressable) archive. -/
def fs_corrupt : FS := fs0.set raw_path_a (FileData.raw 5 RawContent.corrupt)

/-- A filesystem where the raw archive exists but is empty (size zero). -/
def fs_zero_raw : FS := fs0.set raw_path_a (FileData.raw 0 RawContent.corrupt)

/-- A filesystem where a zero-byte file sits at the derived output path of
`raw_path_a` (for instance left by an interrupted write). -/
def fs_zero_out : FS := fs0.set (parsedPathOf raw_path_a) (FileData.truncated 0)

/-- A filesystem where a complete non-empty raw archive is already on disk
for `self0`'s day. -/
def fs_have_raw : FS := fs0.set (rawPathOf self0 20362) (FileData.raw 7 (RawContent.good []))

/-- Three archive lines: a record with metric 10, a record with metric 75,
and a malformed line. -/
def lines3 : List (Option Record) := [some rec10, some rec75, none]

/-- A filesystem holding one good archive with the three lines of `lines3`. -/
def fs_lines3 : FS := fs0.set raw_path_a (FileData.raw 20 (RawContent.good lines3))

/- ### Helper lemmas -/

theorem FS.set_self (fs : FS) (p : String) (d : FileData) : fs.set p d p = some d := by
  simp [FS.set]

theorem present_of_some (fs : FS) (p : String) (fd : FileData) (h : fs p = some fd)
    (hsz : 0 < fd.size) : present fs p = true := by
  simp [present, h, hsz]

theorem present_of_zero (fs : FS) (p : String) (fd : FileData) (h : fs p = some fd)
    (hsz : fd.size = 0) : present fs p = false := by
  simp [present, h, hsz]

theorem dl_skip (self : RipeAtlasPipeline) (net : String → NetResult) (fs : FS) (d : Int)
    (h : present fs (rawPathOf self d) = true) :
    download_dump self net fs d = (Except.ok (some (rawPathOf self d)), fs, false) := by
  simp [download_dump, h]

theorem dl_conn (self : RipeAtlasPipeline) (net : String → NetResult) (fs : FS) (d : Int)
    (h1 : present fs (rawPathOf self d) = false)
    (h2 : net (urlOf self d) = NetResult.connFailure) :
    download_dump self net fs d = (Except.error (), fs, true) := by
  simp [download_dump, h1, h2]

theorem dl_stream (self : RipeAtlasPipeline) (net : String → NetResult) (fs : FS) (d : Int)
    (w : Nat)
    (h1 : present fs (rawPathOf self d) = false)
    (h2 : net (urlOf self d) = NetResult.streamFailure w) :
    download_dump self net fs d =
      (Except.error (),
       fs.set (rawPathOf self d) (FileData.raw w RawContent.corrupt), true) := by
  simp [download_dump, h1, h2]

theorem dl_http (self : RipeAtlasPipeline) (net : String → NetResult) (fs : FS) (d : Int)
    (h1 : present fs (rawPathOf self d) = false)
    (h2 : net (urlOf self d) = NetResult.httpError) :
    download_dump self net fs d = (Except.ok none, fs, true) := by
  simp [download_dump, h1, h2]

theorem dl_ok (self : RipeAtlasPipeline) (net : String → NetResult) (fs : FS) (d : Int)
    (sz : Nat) (c : RawContent)
    (h1 : present fs (rawPathOf self d) = false)
    (h2 : net (urlOf self d) = NetResult.ok sz c) :
    download_dump self net fs d =
      (Except.ok (some (rawPathOf self d)),
       fs.set (rawPathOf self d) (FileData.raw sz c), true) := by
  simp [download_dump, h1, h2]

theorem dl_net_accessed (self : RipeAtlasPipeline) (net : String → NetResult) (fs : FS)
    (d : Int) (h : present fs (rawPathOf self d) = false) :
    (download_dump self net fs d).2.2 = true := by
  unfold download_dump
  simp only [h, Bool.false_eq_true, if_false]
  split <;> rfl

theorem pd_skip (wf : String → Option Nat) (fs : FS) (rp : String)
    (h : (fs (parsedPathOf rp)).isSome = true) :
    process_dump wf fs (some rp) = (some (parsedPathOf rp), fs, false) := by
  simp [process_dump, h]

theorem pd_good (wf : String → Option Nat) (fs : FS) (rp : String) (sz : Nat)
    (lines : List (Option Record))
    (hraw : fs rp = some (FileData.raw sz (RawContent.good lines)))
    (hpp : fs (parsedPathOf rp) = none)
    (hw : wf (parsedPathOf rp) = none) :
    process_dump wf fs (some rp) =
      (some (parsedPathOf rp),
       fs.set (parsedPathOf rp) (FileData.doc (filtered_results lines)), true) := by
  simp [process_dump, hpp, hraw, hw]

theorem pd_good_wfail (wf : String → Option Nat) (fs : FS) (rp : String) (sz k : Nat)
    (lines : List (Option Record))
    (hraw : fs rp = some (FileData.raw sz (RawContent.good lines)))
    (hpp : fs (parsedPathOf rp) = none)
    (hw : wf (parsedPathOf rp) = some k) :
    process_dump wf fs (some rp) =
      (none, fs.set (parsedPathOf rp) (FileData.truncated k), true) := by
  simp [process_dump, hpp, hraw, hw]

theorem pd_corrupt (wf : String → Option Nat) (fs : FS) (rp : String) (sz : Nat)
    (hraw : fs rp = some (FileData.raw sz RawContent.corrupt))
    (hpp : fs (parsedPathOf rp) = none) :
    process_dump wf fs (some rp) = (none, fs, true) := by
  simp [process_dump, hpp, hraw]

theorem pd_missing (wf : String → Option Nat) (fs : FS) (rp : String)
    (hraw : fs rp = none)
    (hpp : fs (parsedPathOf rp) = none) :
    process_dump wf fs (some rp) = (none, fs, true) := by
  simp [process_dump, hpp, hraw]

theorem filterStep_split (a : List FilteredRecord) (x : Option Record) :
    filterStep a x = a ++ filterStep [] x := by
  cases x with
  | none => simp [filterStep]
  | some r =>
    simp only [filterStep, List.concat_eq_append]
    split <;> simp

theorem foldl_filterStep (l : List (Option Record)) :
    ∀ a : List FilteredRecord, l.foldl filterStep a = a ++ l.foldl filterStep [] := by
  induction l with
  | nil => intro a; simp
  | cons x l ih =>
    intro a
    simp only [List.foldl_cons]
    rw [ih (filterStep a x), ih (filterStep [] x), filterStep_split a x,
        List.append_assoc]

theorem filtered_results_append (xs ys : List (Option Record)) :
    filtered_results (xs ++ ys) = filtered_results xs ++ filtered_results ys := by
  unfold filtered_results
  rw [List.foldl_append]
  exact foldl_filterStep ys (xs.foldl filterStep [])

theorem filtered_results_cons (x : Option Record) (xs : List (Option Record)) :
    filtered_results (x :: xs) = filterStep [] x ++ filtered_results xs := by
  unfold filtered_results
  simp only [List.foldl_cons]
  exact foldl_filterStep xs (filterStep [] x)

theorem filtered_results_singleton (r : Record) :
    filtered_results [some r] = if 50 < r.avgD then [project r] else [] := by
  unfold filtered_results
  simp only [List.foldl_cons, List.foldl_nil, filterStep, List.concat_eq_append]
  split <;> simp

theorem filtered_results_spec (lines : List (Option Record)) :
    filtered_results lines =
      ((lines.filterMap id).filter (fun record => decide (50 < record.avgD))).map project := by
  induction lines with
  | nil => rfl
  | cons x xs ih =>
    rw [filtered_results_cons, ih]
    cases x with
    | none => simp [filterStep]
    | some r =>
      by_cases h : 50 < r.avgD
      · simp [filterStep, h, List.concat_eq_append]
      · simp [filterStep, h]

theorem date_range_cons (p : RipeAtlasPipeline) (h : p.start_date ≤ p.end_date) :
    ∃ tl, _get_date_range p = p.start_date :: tl := by
  have hn : (p.end_date - p.start_date + 1).toNat
      = (p.end_date - p.start_date).toNat + 1 := by omega
  refine ⟨((List.range (p.end_date - p.start_date).toNat).map Nat.succ).map
      (fun i : Nat => p.start_date + (i : Int)), ?_⟩
  unfold _get_date_range
  rw [hn, List.range_succ_eq_map]
  simp

theorem date_range_single (p : RipeAtlasPipeline) (h : p.end_date = p.start_date) :
    _get_date_range p = [p.start_date] := by
  unfold _get_date_range
  have hn : (p.end_date - p.start_date + 1).toNat = 1 := by omega
  rw [hn]
  simp [List.range_succ]

theorem date_range_empty (p : RipeAtlasPipeline) (h : p.end_date < p.start_date) :
    _get_date_range p = [] := by
  unfold _get_date_range
  have hn : (p.end_date - p.start_date + 1).toNat = 0 := by omega
  rw [hn, List.range_zero, List.map_nil]

theorem execute_abort (self : RipeAtlasPipeline) (net : String → NetResult)
    (wf : String → Option Nat) (fs : FS)
    (h : self.start_date ≤ self.end_date)
    (h1 : present fs (rawPathOf self self.start_date) = false)
    (h2 : net (urlOf self self.start_date) = NetResult.connFailure) :
    execute self net wf fs = Except.error () := by
  obtain ⟨tl, htl⟩ := date_range_cons self h
  unfold execute
  rw [htl]
  simp [phase1, dl_conn self net fs self.start_date h1 h2]

theorem execute_http_single (self : RipeAtlasPipeline) (net : String → NetResult)
    (wf : String → Option Nat) (fs : FS)
    (h : self.end_date = self.start_date)
    (h1 : present fs (rawPathOf self self.start_date) = false)
    (h2 : net (urlOf self self.start_date) = NetResult.httpError) :
    execute self net wf fs = Except.ok (fs, 1, 0) := by
  unfold execute
  rw [date_range_single self h]
  simp [phase1, dl_http self net fs self.start_date h1 h2, phase2]

theorem execute_empty (p : RipeAtlasPipeline) (net : String → NetResult)
    (wf : String → Option Nat) (fs : FS) (h : p.end_date < p.start_date) :
    execute p net wf fs = Except.ok (fs, 0, 0) := by
  unfold execute
  rw [date_range_empty p h]
  simp [phase1, phase2]

/- ### Sanity anchors for the modelled formatter and locator -/

theorem civil_anchor : civil_from_days 20362 = (2025, 10, 1) := by decide

theorem build_url_anchor :
    _build_url self0 20362 =
      ("https://ftp.ripe.net/ripe/atlas/data/2025/10/01/ping-v4-builtin-2025-10-01.bz2",
       "ping-v4-builtin-2025-10-01.bz2") := rfl

theorem raw_path_anchor : rawPathOf self0 20362 = raw_path_a := rfl

theorem parsed_path_anchor :
    parsedPathOf raw_path_a = "data/parsed_dumps/ping-v4-builtin-2025-10-01_parsed.json" := rfl

/- ### C1 -/

/-- Claim C1 is false on the code: with an empty filesystem and a network
whose request hits a connection failure (timeout / reset), `download_dump`
raises the exception instead of returning a reported outcome, and the
orchestrator's run aborts (`future.result()` re-raises) instead of
continuing past the item. -/
theorem C1_counterexample :
    (download_dump self0 net_conn_fail fs0 20362).1 = Except.error ()
    ∧ execute self0 net_conn_fail wf0 fs0 = Except.error () := ⟨rfl, rfl⟩

/-- Claim C1 (corrected): a network-layer failure other than an unsuccessful
HTTP status (a connection failure before streaming, or a failure while
streaming the body to disk — the latter moreover leaves the partial file on
disk) is not caught by `download_dump`: the exception escapes, and the
orchestrator's batch aborts when it collects that future's result.  Only an
unsuccessful HTTP status is caught and reported non-fatally (as a `None`
outcome), after which the run continues and completes. -/
theorem C1_amended :
    (∀ (self : RipeAtlasPipeline) (net : String → NetResult) (fs : FS) (d : Int),
      present fs (rawPathOf self d) = false →
      net (urlOf self d) = NetResult.connFailure →
      download_dump self net fs d = (Except.error (), fs, true))
  ∧ (∀ (self : RipeAtlasPipeline) (net : String → NetResult) (fs : FS) (d : Int) (w : Nat),
      present fs (rawPathOf self d) = false →
      net (urlOf self d) = NetResult.streamFailure w →
      download_dump self net fs d =
        (Except.error (),
         fs.set (rawPathOf self d) (FileData.raw w RawContent.corrupt), true))
  ∧ (∀ (self : RipeAtlasPipeline) (net : String → NetResult) (fs : FS) (d : Int),
      present fs (rawPathOf self d) = false →
      net (urlOf self d) = NetResult.httpError →
      download_dump self net fs d = (Except.ok none, fs, true))
  ∧ (∀ (self : RipeAtlasPipeline) (net : String → NetResult)
        (wf : String → Option Nat) (fs : FS),
      self.start_date ≤ self.end_date →
      present fs (rawPathOf self self.start_date) = false →
      net (urlOf self self.start_date) = NetResult.connFailure →
      execute self net wf fs = Except.error ())
  ∧ (∀ (self : RipeAtlasPipeline) (net : String → NetResult)
        (wf : String → Option Nat) (fs : FS),
      self.end_date = self.start_date →
      present fs (rawPathOf self self.start_date) = false →
      net (urlOf self self.start_date) = NetResult.httpError →
      execute self net wf fs = Except.ok (fs, 1, 0)) :=
  ⟨dl_conn, dl_stream, dl_http, execute_abort, execute_http_single⟩

/-- Witness for `C1_amended` at the one-day window 2025-10-01, the empty
filesystem, and the two concrete failing networks. -/
theorem C1_witness :
    (self0.start_date ≤ self0.end_date
     ∧ present fs0 (rawPathOf self0 self0.start_date) = false
     ∧ net_conn_fail (urlOf self0 self0.start_date) = NetResult.connFailure
     ∧ execute self0 net_conn_fail wf0 fs0 = Except.error ())
  ∧ (self0.end_date = self0.start_date
     ∧ net_http_err (urlOf self0 self0.start_date) = NetResult.httpError
     ∧ execute self0 net_http_err wf0 fs0 = Except.ok (fs0, 1, 0)) :=
  ⟨⟨le_refl _, rfl, rfl,
    C1_amended.2.2.2.1 self0 net_conn_fail wf0 fs0 (le_refl _) rfl rfl⟩,
   ⟨rfl, rfl,
    C1_amended.2.2.2.2 self0 net_http_err wf0 fs0 rfl rfl rfl⟩⟩

/- ### C2 -/

/-- Claim C2 is false on the code as a whole: its idempotency consequence
fails when the remote answers success with an empty body.  The first fetch
succeeds (returns the raw path) after accessing the network and stores a
zero-byte file; because the skip test demands size strictly greater than
zero, the second fetch accesses the network again. -/
theorem C2_counterexample :
    (download_dump self0 net_empty_ok fs0 20362).1
        = Except.ok (some (rawPathOf self0 20362))
    ∧ (download_dump self0 net_empty_ok fs0 20362).2.2 = true
    ∧ (download_dump self0 net_empty_ok
        ((download_dump self0 net_empty_ok fs0 20362).2.1) 20362).2.2 = true :=
  ⟨rfl, rfl, rfl⟩

/-- Claim C2 (corrected): a file of size strictly greater than zero at the
derived raw path makes fetch return it with no network access and no
filesystem change; a zero-size file is treated as absent and re-downloaded;
and fetching twice in sequence performs network I/O only on the first call
provided the first call stored a non-empty body — a first call that stores
an empty file (or fails) is not skipped by the second call. -/
theorem C2_amended :
    (∀ (self : RipeAtlasPipeline) (net : String → NetResult) (fs : FS) (d : Int),
      present fs (rawPathOf self d) = true →
      download_dump self net fs d = (Except.ok (some (rawPathOf self d)), fs, false))
  ∧ (∀ (self : RipeAtlasPipeline) (net : String → NetResult) (fs : FS) (d : Int)
        (fd : FileData),
      fs (rawPathOf self d) = some fd → fd.size = 0 →
      (download_dump self net fs d).2.2 = true)
  ∧ (∀ (self : RipeAtlasPipeline) (net net' : String → NetResult) (fs : FS) (d : Int)
        (sz : Nat) (c : RawContent),
      present fs (rawPathOf self d) = false →
      net (urlOf self d) = NetResult.ok sz c → 0 < sz →
      download_dump self net' ((download_dump self net fs d).2.1) d =
        (Except.ok (some (rawPathOf self d)), (download_dump self net fs d).2.1, false)) := by
  refine ⟨dl_skip, ?_, ?_⟩
  · intro self net fs d fd h hsz
    exact dl_net_accessed self net fs d (present_of_zero fs _ fd h hsz)
  · intro self net net' fs d sz c hpres hnet hsz
    have h2 : (download_dump self net fs d).2.1
        = fs.set (rawPathOf self d) (FileData.raw sz c) := by
      rw [dl_ok self net fs d sz c hpres hnet]
    rw [h2]
    exact dl_skip self net' _ d
      (present_of_some _ _ (FileData.raw sz c) (FS.set_self fs _ _) hsz)

/-- Witness for `C2_amended`: a complete 7-byte raw file is skipped with no
network access; a zero-byte raw file triggers network access; after a fetch
that stores a 7-byte body, refetching skips the network. -/
theorem C2_witness :
    (present fs_have_raw (rawPathOf self0 20362) = true
     ∧ download_dump self0 net_conn_fail fs_have_raw 20362
         = (Except.ok (some (rawPathOf self0 20362)), fs_have_raw, false))
  ∧ (fs_zero_raw (rawPathOf self0 20362) = some (FileData.raw 0 RawContent.corrupt)
     ∧ (download_dump self0 net_conn_fail fs_zero_raw 20362).2.2 = true)
  ∧ (present fs0 (rawPathOf self0 20362) = false
     ∧ net_good (urlOf self0 20362) = NetResult.ok 7 (RawContent.good [])
     ∧ 0 < 7
     ∧ download_dump self0 net_conn_fail ((download_dump self0 net_good fs0 20362).2.1) 20362
         = (Except.ok (some (rawPathOf self0 20362)),
            (download_dump self0 net_good fs0 20362).2.1, false)) := by
  have hpres : present fs_have_raw (rawPathOf self0 20362) = true := by
    with_unfolding_all rfl
  have hzr : fs_zero_raw (rawPathOf self0 20362) = some (FileData.raw 0 RawContent.corrupt) := by
    with_unfolding_all rfl
  exact ⟨⟨hpres, C2_amended.1 self0 net_conn_fail fs_have_raw 20362 hpres⟩,
    ⟨hzr, C2_amended.2.1 self0 net_conn_fail fs_zero_raw 20362 _ hzr rfl⟩,
    ⟨rfl, rfl, by decide,
     C2_amended.2.2 self0 net_good net_conn_fail fs0 20362 7 (RawContent.good [])
       rfl rfl (by decide)⟩⟩

/- ### C3 -/

/-- Claim C3 (confirmed): with the default filter and its fixed threshold
50, a successfully parsed record contributes its projection to the output
accumulator exactly when its metric `record.get("avg", 0)` is strictly
greater than 50; a record whose metric is at most 50 contributes nothing, a
malformed line contributes nothing, and an absent metric field defaults to
0 (hence contributes nothing). -/
theorem C3_filter_threshold :
    (∀ (lines : List (Option Record)) (record : Record),
      filtered_results (lines.concat (some record)) =
        filtered_results lines ++ (if 50 < record.avgD then [project record] else []))
  ∧ (∀ (lines : List (Option Record)),
      filtered_results (lines.concat none) = filtered_results lines)
  ∧ (∀ (pid : Option Int) (dst : Option String) (ts : Option Int),
      Record.avgD { avg := none, prb_id := pid, dst_addr := dst, timestamp := ts } = 0) := by
  refine ⟨?_, ?_, fun pid dst ts => rfl⟩
  · intro lines r
    rw [List.concat_eq_append, filtered_results_append, filtered_results_singleton]
  · intro lines
    rw [List.concat_eq_append, filtered_results_append]
    simp [filtered_results, filterStep]

/- ### C4 -/

/-- Claim C4 is false on the code: constructing the pipeline with a start
date (2025-10-21, day 20382) strictly after its end date (2025-10-11, day
20372) raises nothing — there is no range validation in `__init__` — and
the resulting run simply iterates over an empty date range and completes
without any error and without any I/O. -/
theorem C4_counterexample :
    RipeAtlasPipeline.init 20382 20372 "v4" "builtin" 4 = Except.ok self_bad
    ∧ _get_date_range self_bad = []
    ∧ execute self_bad net_conn_fail wf0 fs0 = Except.ok (fs0, 0, 0) := ⟨rfl, rfl, rfl⟩

/-- Claim C4 (corrected): pipeline construction performs no validation of
the date range and always succeeds; when start is strictly after end the
expanded date range is empty, so the run performs no network access and no
processing and completes normally — no InvalidRange/InvalidConfiguration
error exists anywhere in the program. -/
theorem C4_amended :
    ∀ (s e : Int) (ipv subtype : String) (mw : Nat),
      RipeAtlasPipeline.init s e ipv subtype mw =
        Except.ok { start_date := s, end_date := e, ipv := ipv, subtype := subtype,
                    max_workers := mw }
      ∧ (e < s →
          _get_date_range { start_date := s, end_date := e, ipv := ipv,
                            subtype := subtype, max_workers := mw } = []
          ∧ ∀ (net : String → NetResult) (wf : String → Option Nat) (fs : FS),
              execute { start_date := s, end_date := e, ipv := ipv,
                        subtype := subtype, max_workers := mw } net wf fs
                = Except.ok (fs, 0, 0)) := by
  intro s e ipv subtype mw
  exact ⟨rfl, fun h => ⟨date_range_empty _ h,
    fun net wf fs => execute_empty _ net wf fs h⟩⟩

/-- Witness for `C4_amended` at the inverted window (20382, 20372). -/
theorem C4_witness :
    RipeAtlasPipeline.init 20382 20372 "v4" "builtin" 4 = Except.ok self_bad
    ∧ (20372 : Int) < 20382
    ∧ _get_date_range self_bad = []
    ∧ execute self_bad net_http_err wf0 fs0 = Except.ok (fs0, 0, 0) :=
  ⟨(C4_amended 20382 20372 "v4" "builtin" 4).1, by decide,
   ((C4_amended 20382 20372 "v4" "builtin" 4).2 (by decide)).1,
   ((C4_amended 20382 20372 "v4" "builtin" 4).2 (by decide)).2 net_http_err wf0 fs0⟩

/- ### C5 -/

/-- Claim C5 is false on the code in its counting part: two archives that
differ only in the number of malformed lines (one versus two) produce
identical process outcomes and identical output documents, so the outcome
carries no count of malformed lines skipped.  (The independence part of the
claim does hold — the passing record is still extracted in both runs.) -/
theorem C5_counterexample :
    (process_dump wf0 fs_one_bad (some raw_path_a)).1
        = (process_dump wf0 fs_two_bad (some raw_path_a)).1
    ∧ (process_dump wf0 fs_one_bad (some raw_path_a)).2.1 (parsedPathOf raw_path_a)
        = (process_dump wf0 fs_two_bad (some raw_path_a)).2.1 (parsedPathOf raw_path_a)
    ∧ (process_dump wf0 fs_one_bad (some raw_path_a)).1 = some (parsedPathOf raw_path_a)
    ∧ (process_dump wf0 fs_one_bad (some raw_path_a)).2.1 (parsedPathOf raw_path_a)
        = some (FileData.doc [project rec75]) := by
  refine ⟨?_, ?_, ?_, ?_⟩ <;> with_unfolding_all rfl

/-- Claim C5 (corrected): a line that fails to parse is skipped silently —
it is not counted, and the process outcome carries no malformed-line count —
and its presence does not affect the parsing or filtering of any other line
in the same archive: the output of an archive with a malformed line inserted
equals the output of the same archive without it. -/
theorem C5_amended :
    (∀ (xs ys : List (Option Record)),
      filtered_results (xs ++ none :: ys) = filtered_results (xs ++ ys))
  ∧ (∀ (wf : String → Option Nat) (fs : FS) (rp : String) (sz : Nat)
        (xs ys : List (Option Record)),
      fs rp = some (FileData.raw sz (RawContent.good (xs ++ none :: ys))) →
      fs (parsedPathOf rp) = none →
      wf (parsedPathOf rp) = none →
      process_dump wf fs (some rp) =
        (some (parsedPathOf rp),
         fs.set (parsedPathOf rp) (FileData.doc (filtered_results (xs ++ ys))), true)) := by
  have key : ∀ (xs ys : List (Option Record)),
      filtered_results (xs ++ none :: ys) = filtered_results (xs ++ ys) := by
    intro xs ys
    rw [filtered_results_append, filtered_results_cons, filtered_results_append]
    simp [filterStep]
  refine ⟨key, ?_⟩
  intro wf fs rp sz xs ys hraw hpp hw
  rw [pd_good wf fs rp sz _ hraw hpp hw, key xs ys]

/-- Witness for `C5_amended` on the concrete archive `[some rec75, none]`. -/
theorem C5_witness :
    fs_one_bad raw_path_a
        = some (FileData.raw 9 (RawContent.good ([some rec75] ++ none :: [])))
    ∧ fs_one_bad (parsedPathOf raw_path_a) = none
    ∧ wf0 (parsedPathOf raw_path_a) = none
    ∧ process_dump wf0 fs_one_bad (some raw_path_a) =
        (some (parsedPathOf raw_path_a),
         fs_one_bad.set (parsedPathOf raw_path_a)
           (FileData.doc (filtered_results ([some rec75] ++ []))), true) := by
  have h1 : fs_one_bad raw_path_a
      = some (FileData.raw 9 (RawContent.good ([some rec75] ++ none :: []))) := by
    with_unfolding_all rfl
  have h2 : fs_one_bad (parsedPathOf raw_path_a) = none := by with_unfolding_all rfl
  exact ⟨h1, h2, rfl, C5_amended.2 wf0 fs_one_bad raw_path_a 9 [some rec75] [] h1 h2 rfl⟩

/- ### C6 -/

/-- Claim C6 is false on the code in its write-error part: processing a good
archive under a write that fails at the final `json.dump` returns `None`
(the error is reported) but leaves a file at the output path — the output
file was opened with mode `w` before the dump, so a partial (here zero-byte)
document remains. -/
theorem C6_counterexample :
    (process_dump wf_fail0 fs_good (some raw_path_a)).1 = none
    ∧ ((process_dump wf_fail0 fs_good (some raw_path_a)).2.1
        (parsedPathOf raw_path_a)).isSome = true := by
  refine ⟨?_, ?_⟩ <;> with_unfolding_all rfl

/-- Claim C6 (corrected): the output document is written once, only after
the full line-by-line pass, and contains the whole filtered set; an error
while reading or decompressing the input (or a missing input file) leaves
nothing at the output path; but an error during the final write leaves a
truncated file at the output path, so the no-partial-output guarantee holds
only for read/decompress errors, not for write errors. -/
theorem C6_amended :
    (∀ (wf : String → Option Nat) (fs : FS) (rp : String) (sz : Nat)
        (lines : List (Option Record)),
      fs rp = some (FileData.raw sz (RawContent.good lines)) →
      fs (parsedPathOf rp) = none →
      wf (parsedPathOf rp) = none →
      process_dump wf fs (some rp) =
        (some (parsedPathOf rp),
         fs.set (parsedPathOf rp) (FileData.doc (filtered_results lines)), true))
  ∧ (∀ (wf : String → Option Nat) (fs : FS) (rp : String) (sz : Nat),
      fs rp = some (FileData.raw sz RawContent.corrupt) →
      fs (parsedPathOf rp) = none →
      process_dump wf fs (some rp) = (none, fs, true))
  ∧ (∀ (wf : String → Option Nat) (fs : FS) (rp : String),
      fs rp = none → fs (parsedPathOf rp) = none →
      process_dump wf fs (some rp) = (none, fs, true))
  ∧ (∀ (wf : String → Option Nat) (fs : FS) (rp : String) (sz k : Nat)
        (lines : List (Option Record)),
      fs rp = some (FileData.raw sz (RawContent.good lines)) →
      fs (parsedPathOf rp) = none →
      wf (parsedPathOf rp) = some k →
      process_dump wf fs (some rp) =
        (none, fs.set (parsedPathOf rp) (FileData.truncated k), true)) :=
  ⟨pd_good, pd_corrupt, pd_missing, pd_good_wfail⟩

/-- Witness for `C6_amended`: the same good archive processed under a
completing write and under a failing write. -/
theorem C6_witness :
    fs_good raw_path_a = some (FileData.raw 9 (RawContent.good [some rec75]))
    ∧ fs_good (parsedPathOf raw_path_a) = none
    ∧ wf_fail0 (parsedPathOf raw_path_a) = some 0
    ∧ process_dump wf_fail0 fs_good (some raw_path_a) =
        (none, fs_good.set (parsedPathOf raw_path_a) (FileData.truncated 0), true)
    ∧ process_dump wf0 fs_good (some raw_path_a) =
        (some (parsedPathOf raw_path_a),
         fs_good.set (parsedPathOf raw_path_a)
           (FileData.doc (filtered_results [some rec75])), true) := by
  have h1 : fs_good raw_path_a = some (FileData.raw 9 (RawContent.good [some rec75])) := by
    with_unfolding_all rfl
  have h2 : fs_good (parsedPathOf raw_path_a) = none := by with_unfolding_all rfl
  exact ⟨h1, h2, rfl,
    C6_amended.2.2.2 wf_fail0 fs_good raw_path_a 9 0 [some rec75] h1 h2 rfl,
    C6_amended.1 wf0 fs_good raw_path_a 9 [some rec75] h1 h2 rfl⟩

/- ### C7 -/

/-- Claim C7 is false on the code in its twice-in-sequence part: on a
corrupt archive the first process call opens and scans the input, fails
before writing anything, and so the second call opens and scans the input
again — the decompression pass is not performed only on the first call. -/
theorem C7_counterexample :
    (process_dump wf0 fs_corrupt (some raw_path_a)).2.2 = true
    ∧ (process_dump wf0 ((process_dump wf0 fs_corrupt (some raw_path_a)).2.1)
        (some raw_path_a)).2.2 = true := by
  refine ⟨?_, ?_⟩ <;> with_unfolding_all rfl

/-- Claim C7 (corrected): if any file exists at the derived output path,
process returns it without reopening or re-scanning the raw input; hence
processing twice in sequence re-scans only when the first call failed
before reaching the write step — whenever the first call reached the write
(which creates the output file even if the write then fails), the second
call performs no scan and returns the output path. -/
theorem C7_amended :
    (∀ (wf : String → Option Nat) (fs : FS) (rp : String),
      (fs (parsedPathOf rp)).isSome = true →
      process_dump wf fs (some rp) = (some (parsedPathOf rp), fs, false))
  ∧ (∀ (wf wf' : String → Option Nat) (fs : FS) (rp : String) (sz : Nat)
        (lines : List (Option Record)),
      fs rp = some (FileData.raw sz (RawContent.good lines)) →
      fs (parsedPathOf rp) = none →
      process_dump wf' ((process_dump wf fs (some rp)).2.1) (some rp) =
        (some (parsedPathOf rp), (process_dump wf fs (some rp)).2.1, false)) := by
  refine ⟨pd_skip, ?_⟩
  intro wf wf' fs rp sz lines hraw hpp
  cases hw : wf (parsedPathOf rp) with
  | none =>
    rw [pd_good wf fs rp sz lines hraw hpp hw]
    have hs : ((fs.set (parsedPathOf rp) (FileData.doc (filtered_results lines)))
        (parsedPathOf rp)).isSome = true := by
      rw [FS.set_self]
      rfl
    exact pd_skip wf' _ rp hs
  | some k =>
    rw [pd_good_wfail wf fs rp sz k lines hraw hpp hw]
    have hs : ((fs.set (parsedPathOf rp) (FileData.truncated k))
        (parsedPathOf rp)).isSome = true := by
      rw [FS.set_self]
      rfl
    exact pd_skip wf' _ rp hs

/-- Witness for `C7_amended`: an existing (even zero-byte) output file is
returned without a scan, and after one successful pass the second pass
skips. -/
theorem C7_witness :
    ((fs_zero_out (parsedPathOf raw_path_a)).isSome = true
     ∧ process_dump wf0 fs_zero_out (some raw_path_a)
         = (some (parsedPathOf raw_path_a), fs_zero_out, false))
  ∧ (fs_good raw_path_a = some (FileData.raw 9 (RawContent.good [some rec75]))
     ∧ fs_good (parsedPathOf raw_path_a) = none
     ∧ process_dump wf0 ((process_dump wf0 fs_good (some raw_path_a)).2.1)
         (some raw_path_a)
         = (some (parsedPathOf raw_path_a),
            (process_dump wf0 fs_good (some raw_path_a)).2.1, false)) := by
  have h0 : (fs_zero_out (parsedPathOf raw_path_a)).isSome = true := by
    with_unfolding_all rfl
  have h1 : fs_good raw_path_a = some (FileData.raw 9 (RawContent.good [some rec75])) := by
    with_unfolding_all rfl
  have h2 : fs_good (parsedPathOf raw_path_a) = none := by with_unfolding_all rfl
  exact ⟨⟨h0, C7_amended.1 wf0 fs_zero_out raw_path_a h0⟩,
    ⟨h1, h2, C7_amended.2 wf0 wf0 fs_good raw_path_a 9 [some rec75] h1 h2⟩⟩

/- ### C8 -/

/-- Claim C8 (confirmed): for every window with start ≤ end, the date-range
expansion yields exactly (end − start in days) + 1 days, strictly ascending
(hence pairwise distinct), and contains a day `d` precisely when
start ≤ d ≤ end — both endpoints included. -/
theorem C8_date_range (p : RipeAtlasPipeline) (h : p.start_date ≤ p.end_date) :
    (_get_date_range p).length = (p.end_date - p.start_date).toNat + 1
    ∧ List.Pairwise (fun a b : Int => a < b) (_get_date_range p)
    ∧ ∀ d : Int, d ∈ _get_date_range p ↔ p.start_date ≤ d ∧ d ≤ p.end_date := by
  refine ⟨?_, ?_, ?_⟩
  · unfold _get_date_range
    rw [List.length_map, List.length_range]
    omega
  · unfold _get_date_range
    exact List.Pairwise.map _ (fun a b hab => by omega) (List.pairwise_lt_range _)
  · intro d
    unfold _get_date_range
    simp only [List.mem_map, List.mem_range]
    constructor
    · rintro ⟨i, hi, rfl⟩
      omega
    · intro hd
      exact ⟨(d - p.start_date).toNat, by omega, by omega⟩

/-- Witness for `C8_date_range` on the three-day window `self3`. -/
theorem C8_witness :
    self3.start_date ≤ self3.end_date
    ∧ (_get_date_range self3).length = (self3.end_date - self3.start_date).toNat + 1
    ∧ ((20363 : Int) ∈ _get_date_range self3
        ↔ self3.start_date ≤ 20363 ∧ 20363 ≤ self3.end_date) :=
  ⟨by decide, (C8_date_range self3 (by decide)).1,
   (C8_date_range self3 (by decide)).2.2 20363⟩

/- ### C9 -/

/-- Claim C9 (confirmed): the process-stage idempotency check tests only
existence of the output path, not its size — a zero-size file at the
derived output path (such as one left by an interrupted write) makes
process return that path without scanning and without regenerating —
whereas the fetch stage always accesses the network when the raw file on
disk has size zero. -/
theorem C9_existence_only :
    (∀ (wf : String → Option Nat) (fs : FS) (rp : String),
      fs (parsedPathOf rp) = some (FileData.truncated 0) →
      process_dump wf fs (some rp) = (some (parsedPathOf rp), fs, false))
  ∧ (FileData.truncated 0).size = 0
  ∧ (∀ (self : RipeAtlasPipeline) (net : String → NetResult) (fs : FS) (d : Int)
        (c : RawContent),
      fs (rawPathOf self d) = some (FileData.raw 0 c) →
      (download_dump self net fs d).2.2 = true) := by
  refine ⟨?_, rfl, ?_⟩
  · intro wf fs rp h
    exact pd_skip wf fs rp (by rw [h]; rfl)
  · intro self net fs d c h
    exact dl_net_accessed self net fs d (present_of_zero fs _ _ h rfl)

/-- Witness for `C9_existence_only`: a zero-byte output file is honoured as
already-present by process, while a zero-byte raw file is re-fetched. -/
theorem C9_witness :
    fs_zero_out (parsedPathOf raw_path_a) = some (FileData.truncated 0)
    ∧ process_dump wf_fail0 fs_zero_out (some raw_path_a)
        = (some (parsedPathOf raw_path_a), fs_zero_out, false)
    ∧ fs_zero_raw (rawPathOf self0 20362) = some (FileData.raw 0 RawContent.corrupt)
    ∧ (download_dump self0 net_http_err fs_zero_raw 20362).2.2 = true := by
  have h0 : fs_zero_out (parsedPathOf raw_path_a) = some (FileData.truncated 0) := by
    with_unfolding_all rfl
  have h1 : fs_zero_raw (rawPathOf self0 20362)
      = some (FileData.raw 0 RawContent.corrupt) := by
    with_unfolding_all rfl
  exact ⟨h0, C9_existence_only.1 wf_fail0 fs_zero_out raw_path_a h0,
    h1, C9_existence_only.2.2 self0 net_http_err fs_zero_raw 20362 RawContent.corrupt h1⟩

/- ### C10 -/

/-- Claim C10 (confirmed): the records in the output document appear in
exactly the relative order of their source lines — the accumulator equals
the in-order list of parseable records, filtered by the threshold
predicate, mapped through the projection (all three are order-preserving) —
and a successful pass writes exactly that sequence as the output document. -/
theorem C10_order :
    (∀ (lines : List (Option Record)),
      filtered_results lines =
        ((lines.filterMap id).filter (fun record => decide (50 < record.avgD))).map project)
  ∧ (∀ (wf : String → Option Nat) (fs : FS) (rp : String) (sz : Nat)
        (lines : List (Option Record)),
      fs rp = some (FileData.raw sz (RawContent.good lines)) →
      fs (parsedPathOf rp) = none →
      wf (parsedPathOf rp) = none →
      ((process_dump wf fs (some rp)).2.1) (parsedPathOf rp)
        = some (FileData.doc (filtered_results lines))) := by
  refine ⟨filtered_results_spec, ?_⟩
  intro wf fs rp sz lines hraw hpp hw
  rw [pd_good wf fs rp sz lines hraw hpp hw]
  exact FS.set_self fs _ _

/-- Witness for `C10_order` on the archive `[some rec10, some rec75, none]`,
whose output is exactly `[project rec75]`. -/
theorem C10_witness :
    fs_lines3 raw_path_a = some (FileData.raw 20 (RawContent.good lines3))
    ∧ fs_lines3 (parsedPathOf raw_path_a) = none
    ∧ wf0 (parsedPathOf raw_path_a) = none
    ∧ ((process_dump wf0 fs_lines3 (some raw_path_a)).2.1) (parsedPathOf raw_path_a)
        = some (FileData.doc (filtered_results lines3))
    ∧ filtered_results lines3 = [project rec75] := by
  have h1 : fs_lines3 raw_path_a = some (FileData.raw 20 (RawContent.good lines3)) := by
    with_unfolding_all rfl
  have h2 : fs_lines3 (parsedPathOf raw_path_a) = none := by with_unfolding_all rfl
  exact ⟨h1, h2, rfl, C10_order.2 wf0 fs_lines3 raw_path_a 20 lines3 h1 h2 rfl, by decide⟩
